import Mathlib

/-!
Verification of the ermis-classroom-sdk media transport core.

The definitions below are shallow embeddings of the JavaScript source:
* `src/src/index.js` — the publisher (`createPacketWithHeader`,
  `sendOverStream`, `createBidirectionalStream`, `handleVideoChunk`,
  `handleOpusAudioChunk`, `sendStreamConfig`);
* the receiver media worker (`handleMediaWsMessage`, `handleBitrateSwitch`);
* `src/src/workers/audio-worklet1.js` — the jitter-resistant audio worklet
  (`JitterResistantProcessor`).

Bytes are modelled as `Nat` values; every store into a `Uint8Array` is
embedded as `% 256` (the ECMAScript `ToUint8` conversion).  JavaScript
numbers holding timestamps are modelled as `Int` (all arithmetic on them in
the source is integral, with `Math.floor` made explicit as `Int.fdiv`).
Audio samples and the worklet's adaptive buffer size are modelled as `ℚ`.
-/

namespace ErmisSDK

/-- Big-endian 32-bit byte encoding, as `DataView.setUint32(offset, s, false)`
writes a value `s < 2^32` (for larger `s` JavaScript first reduces modulo
`2^32`; every call site below is already clamped). -/
def u32be (s : Nat) : List Nat :=
  [s / 16777216 % 256, s / 65536 % 256, s / 256 % 256, s % 256]

/-- The timestamp computation of `createPacketWithHeader`
(`src/src/index.js` lines 1127-1141): subtract `window.videoBaseTimestamp`
when it is truthy (a nonzero number), `Math.floor(x / 1000)`, then the
sequential clamps `if (safeTimestamp < 0) safeTimestamp = 0`,
`if (safeTimestamp > MAX_TS) safeTimestamp = MAX_TS`,
`if (safeTimestamp < MIN_TS) safeTimestamp = MIN_TS`. -/
def safeTimestamp (timestamp videoBaseTimestamp : Int) : Nat :=
  let adjusted : Int :=
    if videoBaseTimestamp ≠ 0 then timestamp - videoBaseTimestamp else timestamp
  let s0 : Int := Int.fdiv adjusted 1000
  let s1 : Int := if s0 < 0 then 0 else s0
  let s2 : Int := if s1 > 4294967295 then 4294967295 else s1
  let s3 : Int := if s2 < 0 then 0 else s2
  s3.toNat

/-- `createPacketWithHeader(data, timestamp, type)` from `src/src/index.js`:
a 5-byte header (big-endian u32 timestamp, u8 frame type) followed by the
payload bytes.  `window.videoBaseTimestamp` is passed explicitly. -/
def createPacketWithHeader (data : List Nat) (timestamp : Int)
    (videoBaseTimestamp : Int) (ty : Nat) : List Nat :=
  u32be (safeTimestamp timestamp videoBaseTimestamp) ++ [ty % 256] ++ data.map (· % 256)

/-- The receiver media worker's header read (`handleMediaWsMessage`):
`getUint32(0, false)`, `getUint8(4)`, `slice(5)`.  A buffer shorter than the
5-byte header makes the `DataView` reads throw, embedded as `none`. -/
def parsePacketHeader (packet : List Nat) : Option (Nat × Nat × List Nat) :=
  match packet with
  | b0 :: b1 :: b2 :: b3 :: ft :: rest =>
      some (((b0 * 256 + b1) * 256 + b2) * 256 + b3, ft, rest)
  | _ => none

/-- `sendOverStream` framing (`src/src/index.js` lines 813-831): a 4-byte
big-endian length prefix followed by the frame bytes. -/
def sendOverStreamBytes (frameBytes : List Nat) : List Nat :=
  u32be frameBytes.length ++ frameBytes.map (· % 256)

/-- The spec's phrasing of the wire timestamp: `floor((timestamp - base)/1000)`
clamped to `[0, 0xFFFFFFFF]`. -/
def clampedMsTimestamp (timestamp base : Int) : Int :=
  min 4294967295 (max 0 (Int.fdiv (timestamp - base) 1000))

theorem u32be_decode (s : Nat) (h : s < 4294967296) :
    ((s / 16777216 % 256 * 256 + s / 65536 % 256) * 256 + s / 256 % 256) * 256
      + s % 256 = s := by
  omega

theorem safeTimestamp_lt (timestamp base : Int) :
    safeTimestamp timestamp base < 4294967296 := by
  unfold safeTimestamp
  dsimp only
  split <;> omega

theorem safeTimestamp_eq_clamped (timestamp base : Int) :
    (safeTimestamp timestamp base : Int) = clampedMsTimestamp timestamp base := by
  unfold safeTimestamp clampedMsTimestamp
  dsimp only
  rcases eq_or_ne base 0 with hb | hb
  · subst hb
    simp only [ne_eq, not_true_eq_false, if_false, sub_zero]
    omega
  · simp only [ne_eq, hb, not_false_eq_true, if_true]
    omega

theorem map_mod256_eq_self (l : List Nat) (h : ∀ b ∈ l, b < 256) :
    l.map (· % 256) = l := by
  induction l with
  | nil => rfl
  | cons a t ih =>
      simp only [List.map_cons, List.cons.injEq]
      exact ⟨Nat.mod_eq_of_lt (h a (List.mem_cons_self a t)),
        ih fun b hb => h b (List.mem_cons_of_mem a hb)⟩

/-- C1: parsing the packet produced by `createPacketWithHeader` (4-byte
big-endian u32 timestamp at offset 0, u8 frame type at offset 4, remainder
as payload, as the receiver worker reads it) recovers the original frame
type and payload, and a timestamp equal to `floor((timestamp - base)/1000)`
clamped to `[0, 0xFFFFFFFF]`; for microsecond inputs that are exact
multiples of 1000 with no base set (and within the representable range),
the millisecond timestamp is recovered exactly. -/
theorem roundtrip_framing (data : List Nat) (ts base : Int) (ty : Nat)
    (hdata : ∀ b ∈ data, b < 256) (hty : ty < 256) :
    parsePacketHeader (createPacketWithHeader data ts base ty) =
      some ((clampedMsTimestamp ts base).toNat, ty, data)
    ∧ (base = 0 → ts % 1000 = 0 → 0 ≤ ts → ts ≤ 4294967295 * 1000 →
        ((clampedMsTimestamp ts base).toNat : Int) * 1000 = ts) := by
  constructor
  · have hlt := safeTimestamp_lt ts base
    have hdec := u32be_decode (safeTimestamp ts base) hlt
    have heq : safeTimestamp ts base = (clampedMsTimestamp ts base).toNat := by
      have h := safeTimestamp_eq_clamped ts base
      omega
    simp only [createPacketWithHeader, u32be, List.cons_append, List.nil_append,
      parsePacketHeader, Option.some.injEq, Prod.mk.injEq]
    exact ⟨by rw [hdec, heq], Nat.mod_eq_of_lt hty, map_mod256_eq_self data hdata⟩
  · intro hb h1000 h0 hle
    subst hb
    unfold clampedMsTimestamp
    rw [Int.fdiv_eq_ediv _ (by norm_num)]
    omega

theorem roundtrip_framing_witness :
    parsePacketHeader (createPacketWithHeader [17, 250] 5000000 0 6) =
      some ((clampedMsTimestamp 5000000 0).toNat, 6, [17, 250])
    ∧ ((clampedMsTimestamp 5000000 0).toNat : Int) * 1000 = 5000000 := by
  have h := roundtrip_framing [17, 250] 5000000 0 6 (by decide) (by decide)
  exact ⟨h.1, h.2 rfl (by decide) (by decide) (by decide)⟩

/-- C2: `createPacketWithHeader` is total (it always produces a packet of
header plus payload length, never throwing), and the written timestamp field
is the clamped value: `0` whenever the base-subtracted, millisecond-converted
value is negative, `0xFFFFFFFF` whenever it exceeds `0xFFFFFFFF`, and always
within `[0, 0xFFFFFFFF]`. -/
theorem timestamp_clamping_total (data : List Nat) (ts base : Int) (ty : Nat) :
    (createPacketWithHeader data ts base ty).length = 5 + data.length
    ∧ (createPacketWithHeader data ts base ty).take 4 = u32be (safeTimestamp ts base)
    ∧ safeTimestamp ts base ≤ 4294967295
    ∧ (Int.fdiv (ts - base) 1000 < 0 → safeTimestamp ts base = 0)
    ∧ (4294967295 < Int.fdiv (ts - base) 1000 →
        safeTimestamp ts base = 4294967295) := by
  have hcl := safeTimestamp_eq_clamped ts base
  refine ⟨?_, ?_, ?_, ?_, ?_⟩
  · simp only [createPacketWithHeader, u32be, List.cons_append, List.nil_append,
      List.length_cons, List.length_map]
    omega
  · rfl
  · unfold clampedMsTimestamp at hcl
    omega
  · intro hneg
    unfold clampedMsTimestamp at hcl
    omega
  · intro hbig
    unfold clampedMsTimestamp at hcl
    omega

theorem timestamp_clamping_total_witness :
    safeTimestamp (-5000000) 0 = 0 ∧ safeTimestamp 5000000000000000 0 = 4294967295 := by
  exact ⟨(timestamp_clamping_total [] (-5000000) 0 6).2.2.2.1 (by decide),
    (timestamp_clamping_total [] 5000000000000000 0 6).2.2.2.2 (by decide)⟩

/-! ### Sender-side channel state and handlers (`src/src/index.js`)

`publishStreams` maps a channel name to `{ writer, reader, configSent,
config }`; the handlers below receive the looked-up per-channel record (a
missing record makes the source return early, which the caller of these
definitions represents by not invoking them).  A message handed to
`sendOverStream` is modelled by `WireMsg` before length-prefixing; the JSON
serialization of the `StreamConfig` control packet is kept symbolic as the
`configJson` constructor. -/

/-- Video decoder configuration captured from encoder metadata in
`handleVideoChunk` (codec, codedWidth, codedHeight, frameRate from
`currentConfig.framerate`, description bytes). -/
structure VideoDecoderConfig where
  codec : String
  codedWidth : Nat
  codedHeight : Nat
  frameRate : Nat
  description : List Nat
  deriving DecidableEq

/-- Audio configuration built in `handleOpusAudioChunk`. -/
structure AudioDecoderConfig where
  codec : String
  sampleRate : Nat
  numberOfChannels : Nat
  description : List Nat
  deriving DecidableEq

inductive ChannelConfig
  | video (cfg : VideoDecoderConfig)
  | audio (cfg : AudioDecoderConfig)
  deriving DecidableEq

/-- Per-channel sender state from `publishStreams` (the stream halves are
I/O handles and carry no protocol state). -/
structure StreamData where
  configSent : Bool
  config : Option ChannelConfig
  deriving DecidableEq

/-- One message handed to a channel's writer path, before `sendOverStream`
adds the 4-byte length prefix. -/
inductive WireMsg
  | configJson (channelName : String) (mediaType : String) (cfg : ChannelConfig)
  | media (packet : List Nat)
  deriving DecidableEq

def WireMsg.isMedia : WireMsg → Bool
  | .media _ => true
  | _ => false

/-- The timestamp field of a media wire message. -/
def mediaTimestamp? (m : WireMsg) : Option Nat :=
  match m with
  | .media pkt => (parsePacketHeader pkt).map (·.1)
  | _ => none

/-- `sendStreamConfig(channelName, config, mediaType)`
(`src/src/index.js` lines 1073-1125): `if (!streamData || streamData.configSent)
return;` then build the `StreamConfig` JSON, send it once over the stream and
set `configSent = true`, `config = config`. -/
def sendStreamConfig (st : StreamData) (channelName : String)
    (mediaType : String) (cfg : ChannelConfig) : StreamData × List WireMsg :=
  if st.configSent then (st, [])
  else ({ st with configSent := true, config := some cfg },
    [.configJson channelName mediaType cfg])

/-- The frame-type tag chosen by `handleVideoChunk`'s `switch (channelName)`. -/
def videoFrameType (channelName : String) (isKey : Bool) : Nat :=
  match channelName with
  | "cam_360p" => if isKey then 0 else 1
  | "cam_720p" => if isKey then 2 else 3
  | "screen_share_1080p" => if isKey then 4 else 5
  | _ => 8

/-- Per-quality encoder record (the fields of `videoEncoders.get(quality)`
that `handleVideoChunk` reads or writes). -/
structure EncoderObj where
  metadataReady : Bool
  videoDecoderConfig : Option VideoDecoderConfig
  deriving DecidableEq

/-- An `EncodedVideoChunk` delivered by the platform encoder. -/
structure VideoChunk where
  isKey : Bool
  timestamp : Int
  data : List Nat
  deriving DecidableEq

/-- `handleVideoChunk(chunk, metadata, quality, channelName)`
(`src/src/index.js` lines 952-1008).  When fresh `metadata.decoderConfig`
arrives it is cached and `sendStreamConfig` is started; that call is not
awaited and sets `configSent` only after its internal `await`, so the gate
`if (!streamData.configSent) return;` reads the entry value of the flag.
We model the eventual flag update inside the returned state and gate the
media write on the entry value. -/
def handleVideoChunk (enc : EncoderObj) (st : StreamData) (chunk : VideoChunk)
    (meta : Option VideoDecoderConfig) (channelName : String)
    (videoBaseTimestamp : Int) : EncoderObj × StreamData × List WireMsg :=
  let enc' : EncoderObj :=
    match meta with
    | some cfg =>
        if !enc.metadataReady then
          { metadataReady := true, videoDecoderConfig := some cfg }
        else enc
    | none => enc
  let cfgStep : StreamData × List WireMsg :=
    match meta with
    | some cfg =>
        if !enc.metadataReady then
          sendStreamConfig st channelName "video" (.video cfg)
        else (st, [])
    | none => (st, [])
  if !st.configSent then (enc', cfgStep.1, cfgStep.2)
  else
    (enc', cfgStep.1,
      cfgStep.2 ++ [.media (createPacketWithHeader chunk.data chunk.timestamp
        videoBaseTimestamp (videoFrameType channelName chunk.isKey))])

/-- The publisher fields read and written by `handleOpusAudioChunk`,
including the `window` globals (`videoBaseTimestamp`, `audioStartPerfTime`;
`0` models an unset/falsy global). -/
structure PublisherAudioState where
  micEnabled : Bool
  isChannelOpen : Bool
  opusBaseTime : Int
  opusSamplesSent : Int
  opusChunkCount : Int
  videoBaseTimestamp : Int
  audioStartPerfTime : Int
  deriving DecidableEq

/-- `handleOpusAudioChunk(typedArray, channelName)` (`src/src/index.js`
lines 1010-1071).  `perfNowMs` stands for `performance.now()`.  Only pages
starting with the "OggS" signature are handled; the first such page (while
`config` is unset) is captured as the audio config description, the timing
anchor is initialised once, and the media packet is written only when
`configSent` was already true on entry (the unawaited `sendStreamConfig`
sets the flag after this handler's synchronous run). -/
def handleOpusAudioChunk (pub : PublisherAudioState) (st : StreamData)
    (dataArray : List Nat) (channelName : String) (perfNowMs : Int) :
    PublisherAudioState × StreamData × List WireMsg :=
  if !pub.micEnabled then (pub, st, [])
  else if !pub.isChannelOpen || dataArray.isEmpty then (pub, st, [])
  else if 4 ≤ dataArray.length ∧ dataArray.getD 0 0 = 79 ∧ dataArray.getD 1 0 = 103
      ∧ dataArray.getD 2 0 = 103 ∧ dataArray.getD 3 0 = 83 then
    let cfgStep : StreamData × List WireMsg :=
      if !st.configSent && st.config.isNone then
        let description := createPacketWithHeader dataArray (perfNowMs * 1000)
          pub.videoBaseTimestamp 6
        let audioConfig : AudioDecoderConfig :=
          { codec := "opus", sampleRate := 48000, numberOfChannels := 1,
            description := description }
        sendStreamConfig { st with config := some (.audio audioConfig) }
          channelName "audio" (.audio audioConfig)
      else (st, [])
    let pub1 : PublisherAudioState :=
      if pub.opusBaseTime = 0 ∧ pub.videoBaseTimestamp ≠ 0 then
        { pub with opusBaseTime := pub.videoBaseTimestamp,
                   audioStartPerfTime := perfNowMs,
                   opusSamplesSent := 0, opusChunkCount := 0 }
      else if pub.opusBaseTime = 0 ∧ pub.videoBaseTimestamp = 0 then
        { pub with opusBaseTime := perfNowMs * 1000,
                   opusSamplesSent := 0, opusChunkCount := 0 }
      else pub
    let timestamp : Int :=
      pub1.opusBaseTime + Int.fdiv (pub1.opusSamplesSent * 1000000) 48000
    if st.configSent then
      (pub1, cfgStep.1, cfgStep.2 ++ [.media (createPacketWithHeader dataArray
        timestamp pub.videoBaseTimestamp 6)])
    else (pub1, cfgStep.1, cfgStep.2)
  else (pub, st, [])

/-- The byte strings written to a channel's writer by
`createBidirectionalStream(channelName)` when the channel is opened
(`src/src/index.js` lines 764-789): the single handshake message, the UTF-8
channel name, sent through `sendOverStream`. -/
def channelOpenWrites (nameBytes : List Nat) : List (List Nat) :=
  [sendOverStreamBytes nameBytes]

/-- C3: while a channel's `configSent` flag is false, an encoded video chunk
produces no media write and is dropped (the handler's result does not depend
on the chunk at all, so nothing is queued), an Opus audio chunk produces no
media write either, and `sendStreamConfig` on a channel whose `configSent`
flag is already true is a no-op: it writes nothing and leaves the channel
state unchanged. -/
theorem config_gating_and_idempotence :
    (∀ enc st c₁ c₂ meta ch base, st.configSent = false →
      handleVideoChunk enc st c₁ meta ch base = handleVideoChunk enc st c₂ meta ch base
      ∧ ∀ m ∈ (handleVideoChunk enc st c₁ meta ch base).2.2, m.isMedia = false)
    ∧ (∀ pub st d ch now, st.configSent = false →
      ∀ m ∈ (handleOpusAudioChunk pub st d ch now).2.2, m.isMedia = false)
    ∧ (∀ st ch mt cfg, st.configSent = true →
      sendStreamConfig st ch mt cfg = (st, [])) := by
  refine ⟨?_, ?_, ?_⟩
  · intro enc st c₁ c₂ meta ch base h
    constructor
    · simp only [handleVideoChunk, h, Bool.not_false, if_true]
    · intro m hm
      simp only [handleVideoChunk, h, Bool.not_false, if_true] at hm
      cases meta with
      | none => simp at hm
      | some cfg =>
          by_cases hmr : enc.metadataReady
          · simp [hmr] at hm
          · simp [hmr, sendStreamConfig, h] at hm
            subst hm
            rfl
  · intro pub st d ch now h
    intro m hm
    unfold handleOpusAudioChunk at hm
    split at hm
    · simp at hm
    · split at hm
      · simp at hm
      · split at hm
        · rw [if_neg (by simp [h])] at hm
          dsimp only at hm
          split at hm
          · simp only [sendStreamConfig] at hm
            split at hm
            · simp at hm
            · simp at hm
              subst hm
              rfl
          · simp at hm
        · simp at hm
  · intro st ch mt cfg h
    simp [sendStreamConfig, h]

theorem config_gating_and_idempotence_witness :
    (handleVideoChunk ⟨false, none⟩ ⟨false, none⟩ ⟨true, 0, [1]⟩ none "cam_360p" 0
      = handleVideoChunk ⟨false, none⟩ ⟨false, none⟩ ⟨false, 5, [2]⟩ none "cam_360p" 0)
    ∧ sendStreamConfig ⟨true, none⟩ "cam_360p" "video" (.video ⟨"avc1", 640, 360, 30, []⟩)
      = (⟨true, none⟩, []) :=
  ⟨(config_gating_and_idempotence.1 ⟨false, none⟩ ⟨false, none⟩
      ⟨true, 0, [1]⟩ ⟨false, 5, [2]⟩ none "cam_360p" 0 rfl).1,
    config_gating_and_idempotence.2.2 ⟨true, none⟩ "cam_360p" "video"
      (.video ⟨"avc1", 640, 360, 30, []⟩) rfl⟩

/-- C7 counterexample: the very first bytes written on a newly opened channel
are NOT the bare UTF-8 channel name: for `"cam_360p"` the first write starts
with the 4-byte big-endian length prefix `[0,0,0,8]` (the handshake goes
through `sendOverStream` like every other message). -/
theorem handshake_unprefixed_ce :
    ¬ (channelOpenWrites [99, 97, 109, 95, 51, 54, 48, 112]).head? =
      some [99, 97, 109, 95, 51, 54, 48, 112] := by decide

/-- C7 amended: the first message written to a newly opened media channel is
the UTF-8 channel name wrapped in the same 4-byte big-endian length prefix
that `sendOverStream` applies to every packet — there is no unprefixed
handshake asymmetry. -/
theorem handshake_first_write_prefixed (nameBytes : List Nat)
    (h : ∀ b ∈ nameBytes, b < 256) :
    (channelOpenWrites nameBytes).head? =
      some (u32be nameBytes.length ++ nameBytes)
    ∧ ∀ frameBytes : List Nat, (∀ b ∈ frameBytes, b < 256) →
        sendOverStreamBytes frameBytes = u32be frameBytes.length ++ frameBytes := by
  refine ⟨?_, ?_⟩
  · simp [channelOpenWrites, sendOverStreamBytes, map_mod256_eq_self nameBytes h]
  · intro f hf
    simp [sendOverStreamBytes, map_mod256_eq_self f hf]

theorem handshake_first_write_prefixed_witness :
    (channelOpenWrites [99, 97, 109, 95, 51, 54, 48, 112]).head? =
      some ([0, 0, 0, 8] ++ [99, 97, 109, 95, 51, 54, 48, 112]) :=
  (handshake_first_write_prefixed [99, 97, 109, 95, 51, 54, 48, 112] (by decide)).1

/-- The C8 scenario: a publisher with mic on, channel open, no timing anchor
yet and no video base timestamp, whose audio channel has already completed
its config handshake. -/
def c8pub : PublisherAudioState :=
  { micEnabled := true, isChannelOpen := true, opusBaseTime := 0,
    opusSamplesSent := 0, opusChunkCount := 0, videoBaseTimestamp := 0,
    audioStartPerfTime := 0 }

def c8st : StreamData :=
  { configSent := true, config := some (.audio ⟨"opus", 48000, 1, []⟩) }

def c8step1 : PublisherAudioState × StreamData × List WireMsg :=
  handleOpusAudioChunk c8pub c8st ([79, 103, 103, 83] ++ [1]) "mic_48k" 1000

def c8step2 : PublisherAudioState × StreamData × List WireMsg :=
  handleOpusAudioChunk c8step1.1 c8step1.2.1 ([79, 103, 103, 83] ++ [2]) "mic_48k" 1040

/-- C8: two successive Opus pages sent after config (anchored at wall-clock
1,000,000 µs) are both written with wire timestamp 1000 ms, and
`opusSamplesSent` is still 0 after both — the accumulator in the timestamp
formula `opusBaseTime + floor(opusSamplesSent * 1000000 / 48000)` is
initialised and reset but never incremented, so successive chunk timestamps
never advance by the chunk duration as the claim (and the formula's evident
intent) requires. -/
theorem audio_timestamp_never_advances :
    c8step1.2.2.map mediaTimestamp? = [some 1000]
    ∧ c8step2.2.2.map mediaTimestamp? = [some 1000]
    ∧ c8step1.1.opusSamplesSent = 0 ∧ c8step2.1.opusSamplesSent = 0 := by
  refine ⟨rfl, rfl, rfl, rfl⟩

/-! ### Receiver media worker (`handleMediaWsMessage`, `handleBitrateSwitch`)

The worker keeps two video decoder slots (`videoDecoder360p`,
`videoDecoder720p`), an audio decoder, the `currentVideoDecoder` pointer
with its `currentQuality` label, one shared `keyFrameReceived` flag and the
`videoCodecReceived` / `audioCodecReceived` flags.  Decoder handles are
modelled by their reported state; a decode request is recorded as a
`DecodeCall` tagged with the slot it goes to.  The cached codec configs are
opaque payloads passed straight to `configure` and are not tracked beyond
the received flags. -/

inductive Quality
  | q360
  | q720
  deriving DecidableEq

inductive DecoderState
  | unconfigured
  | configured
  | closed
  deriving DecidableEq

/-- A decode request issued to one of the worker's decoder slots, with the
chunk's timestamp (µs, `wireTimestamp * 1000`), key flag and payload. -/
inductive DecodeCall
  | video360 (timestamp : Nat) (isKey : Bool) (data : List Nat)
  | video720 (timestamp : Nat) (isKey : Bool) (data : List Nat)
  | audio (timestamp : Nat) (data : List Nat)
  deriving DecidableEq

structure WorkerState where
  currentVideoDecoder : Quality
  currentQuality : Quality
  keyFrameReceived : Bool
  videoCodecReceived : Bool
  audioCodecReceived : Bool
  audioEnabled : Bool
  dec360 : DecoderState
  dec720 : DecoderState
  audioDec : DecoderState
  deriving DecidableEq

/-- The worker state right after `initializeDecoders()`: fresh decoders,
`currentVideoDecoder = videoDecoder360p`, `currentQuality = "360p"`, no
codec or keyframe received yet, audio enabled. -/
def initialWorkerState : WorkerState :=
  { currentVideoDecoder := .q360, currentQuality := .q360,
    keyFrameReceived := false, videoCodecReceived := false,
    audioCodecReceived := false, audioEnabled := true,
    dec360 := .unconfigured, dec720 := .unconfigured,
    audioDec := .unconfigured }

/-- The `"DecoderConfigs"` JSON branch of `handleMediaWsMessage`: when not
all codecs were received yet, both video decoders and the audio decoder are
configured, the first audio frame is decoded from the config description
bytes (header read `getUint32(0)` then `slice(5)`; a description shorter
than 4 bytes makes the guarded `try` fail silently), and both received
flags are set. -/
def handleDecoderConfigs (st : WorkerState) (audioDescription : List Nat) :
    WorkerState × List DecodeCall :=
  if !st.videoCodecReceived || !st.audioCodecReceived then
    let firstAudio : List DecodeCall :=
      match audioDescription with
      | b0 :: b1 :: b2 :: b3 :: rest =>
          [.audio ((((b0 * 256 + b1) * 256 + b2) * 256 + b3) * 1000) (rest.drop 1)]
      | _ => []
    ({ st with videoCodecReceived := true, audioCodecReceived := true,
               dec360 := .configured, dec720 := .configured,
               audioDec := .configured },
     firstAudio)
  else (st, [])

/-- The binary-frame branch of `handleMediaWsMessage`: read the 5-byte
header, then dispatch on the frame type.  Audio (6) decodes whenever audio
is enabled, recreating a closed decoder first.  Video 360p (0/1) and 720p
(2/3) set the shared `keyFrameReceived` flag on a key frame and decode on
their own slot whenever the flag is set — the `currentQuality` checks in the
source are commented out.  Types 4, 5, 7 and 8 fall through without a
decode. -/
def handleMediaFrame (st : WorkerState) (buf : List Nat) :
    WorkerState × List DecodeCall :=
  match parsePacketHeader buf with
  | none => (st, [])
  | some (timestamp, frameType, data) =>
      if frameType = 6 then
        if !st.audioEnabled then (st, [])
        else
          let st := if st.audioDec = .closed then { st with audioDec := .configured } else st
          (st, [.audio (timestamp * 1000) data])
      else if frameType = 0 ∨ frameType = 1 then
        let isKey := frameType = 0
        let st := if isKey then { st with keyFrameReceived := true } else st
        if st.keyFrameReceived then
          let st := if st.dec360 = .closed then { st with dec360 := .configured } else st
          (st, [.video360 (timestamp * 1000) isKey data])
        else (st, [])
      else if frameType = 2 ∨ frameType = 3 then
        let isKey := frameType = 2
        let st := if isKey then { st with keyFrameReceived := true } else st
        if st.keyFrameReceived then
          let st := if st.dec720 = .closed then { st with dec720 := .configured } else st
          (st, [.video720 (timestamp * 1000) isKey data])
        else (st, [])
      else (st, [])

/-- `handleBitrateSwitch(quality)`: when the websocket is open, announce the
quality to the server, swap `currentVideoDecoder`/`currentQuality`, and
reset `keyFrameReceived = false` unconditionally; when it is not open,
nothing changes. -/
def handleBitrateSwitch (st : WorkerState) (quality : Quality)
    (wsOpen : Bool) : WorkerState :=
  if wsOpen then
    let st :=
      match quality with
      | .q360 => { st with currentVideoDecoder := .q360, currentQuality := .q360 }
      | .q720 => { st with currentVideoDecoder := .q720, currentQuality := .q720 }
    { st with keyFrameReceived := false }
  else st

/-- Folding `handleMediaFrame` over an arrival sequence, recording each
message's decode calls separately. -/
def handleFrames (st : WorkerState) (bufs : List (List Nat)) :
    WorkerState × List (List DecodeCall) :=
  match bufs with
  | [] => (st, [])
  | b :: rest =>
      let step := handleMediaFrame st b
      let tail := handleFrames step.1 rest
      (tail.1, step.2 :: tail.2)

/-- A wire frame with the receiver's 5-byte header layout. -/
def mkFrameBuf (timestamp frameType : Nat) (data : List Nat) : List Nat :=
  u32be timestamp ++ [frameType] ++ data

theorem parse_mkFrameBuf (ts ft : Nat) (data : List Nat)
    (h : ts < 4294967296) :
    parsePacketHeader (mkFrameBuf ts ft data) = some (ts, ft, data) := by
  simp [mkFrameBuf, u32be, parsePacketHeader, u32be_decode ts h]

/-- C4: while `keyFrameReceived` is false, delta frames (types 1 and 3) are
dropped without a decode call and without any state change; a key frame
(types 0 and 2) sets `keyFrameReceived` and is decoded on its slot; once
the flag is set, delta frames are decoded; and for the arrival sequence
delta, delta, key, delta the first two frames are dropped and the last two
are decoded. -/
theorem keyframe_gating (st : WorkerState) (ts : Nat) (data : List Nat)
    (hts : ts < 4294967296) :
    (st.keyFrameReceived = false →
      handleMediaFrame st (mkFrameBuf ts 1 data) = (st, [])
      ∧ handleMediaFrame st (mkFrameBuf ts 3 data) = (st, []))
    ∧ ((handleMediaFrame st (mkFrameBuf ts 0 data)).1.keyFrameReceived = true
      ∧ (handleMediaFrame st (mkFrameBuf ts 0 data)).2 = [.video360 (ts * 1000) true data]
      ∧ (handleMediaFrame st (mkFrameBuf ts 2 data)).1.keyFrameReceived = true
      ∧ (handleMediaFrame st (mkFrameBuf ts 2 data)).2 = [.video720 (ts * 1000) true data])
    ∧ (st.keyFrameReceived = true →
      (handleMediaFrame st (mkFrameBuf ts 1 data)).2 = [.video360 (ts * 1000) false data]
      ∧ (handleMediaFrame st (mkFrameBuf ts 3 data)).2 = [.video720 (ts * 1000) false data])
    ∧ (st.keyFrameReceived = false →
      ∀ t3 t4 d3 d4, t3 < 4294967296 → t4 < 4294967296 →
      (handleFrames st [mkFrameBuf ts 1 data, mkFrameBuf ts 1 data,
        mkFrameBuf t3 0 d3, mkFrameBuf t4 1 d4]).2 =
        [[], [], [.video360 (t3 * 1000) true d3], [.video360 (t4 * 1000) false d4]]) := by
  refine ⟨?_, ?_, ?_, ?_⟩
  · intro hk
    constructor <;> simp [handleMediaFrame, parse_mkFrameBuf _ _ _ hts, hk]
  · refine ⟨?_, ?_, ?_, ?_⟩ <;>
      · simp only [handleMediaFrame, parse_mkFrameBuf _ _ _ hts]
        norm_num
        all_goals (split <;> simp)
  · intro hk
    constructor <;> simp [handleMediaFrame, parse_mkFrameBuf _ _ _ hts, hk]
  · intro hk t3 t4 d3 d4 h3 h4
    simp only [handleFrames, handleMediaFrame, parse_mkFrameBuf _ _ _ hts,
      parse_mkFrameBuf _ _ _ h3, parse_mkFrameBuf _ _ _ h4]
    norm_num [hk]
    split <;> simp

theorem keyframe_gating_witness :
    handleMediaFrame initialWorkerState (mkFrameBuf 7 1 [5]) = (initialWorkerState, [])
    ∧ (handleFrames initialWorkerState [mkFrameBuf 7 1 [5], mkFrameBuf 7 1 [5],
        mkFrameBuf 8 0 [6], mkFrameBuf 9 1 [7]]).2 =
        [[], [], [.video360 8000 true [6]], [.video360 9000 false [7]]] := by
  have h := keyframe_gating initialWorkerState 7 [5] (by decide)
  exact ⟨(h.1 rfl).1, h.2.2.2 rfl 8 9 [6] [7] (by decide) (by decide)⟩

/-- C5 counterexample: with the active tier at its 360p default (state
obtained from `initializeDecoders` followed by the `DecoderConfigs`
message, so the 720p config has been received), a type-2 frame (720p
keyframe) IS passed to a decode call on the 720p decoder — the
`currentQuality` gate in the source is commented out, so tier isolation on
decode does not hold. -/
theorem tier_isolation_ce :
    ((handleDecoderConfigs initialWorkerState [0, 0, 0, 0, 0]).1).currentQuality = .q360
    ∧ (handleMediaFrame ((handleDecoderConfigs initialWorkerState [0, 0, 0, 0, 0]).1)
        (mkFrameBuf 100 2 [9])).2 = [.video720 100000 true [9]] :=
  ⟨rfl, rfl⟩

/-- C5 amended: with the active tier 360p, the 360p keyframe, the 360p
deltas (once the shared keyframe flag is set) and all audio frames are
decoded — but 720p frames (types 2 and 3) are decoded as well, on the 720p
decoder slot, subject only to the shared keyframe gate: the active quality
tier does not gate which frames reach a decode call. -/
theorem tier_no_isolation (st : WorkerState) (ts : Nat) (data : List Nat)
    (hts : ts < 4294967296) (h360 : st.currentQuality = .q360) :
    (handleMediaFrame st (mkFrameBuf ts 0 data)).2 = [.video360 (ts * 1000) true data]
    ∧ (st.keyFrameReceived = true →
        (handleMediaFrame st (mkFrameBuf ts 1 data)).2 = [.video360 (ts * 1000) false data])
    ∧ (st.audioEnabled = true →
        (handleMediaFrame st (mkFrameBuf ts 6 data)).2 = [.audio (ts * 1000) data])
    ∧ (handleMediaFrame st (mkFrameBuf ts 2 data)).2 = [.video720 (ts * 1000) true data]
    ∧ (st.keyFrameReceived = true →
        (handleMediaFrame st (mkFrameBuf ts 3 data)).2 = [.video720 (ts * 1000) false data]) := by
  refine ⟨?_, fun hk => ?_, fun ha => ?_, ?_, fun hk => ?_⟩ <;>
    · simp only [handleMediaFrame, parse_mkFrameBuf _ _ _ hts]
      norm_num [*]
      all_goals (split <;> simp_all)

theorem tier_no_isolation_witness :
    (handleMediaFrame ((handleDecoderConfigs initialWorkerState [0, 0, 0, 0, 0]).1)
        (mkFrameBuf 100 0 [8])).2 = [.video360 100000 true [8]]
    ∧ (handleMediaFrame ((handleDecoderConfigs initialWorkerState [0, 0, 0, 0, 0]).1)
        (mkFrameBuf 101 6 [3])).2 = [.audio 101000 [3]] := by
  have h := tier_no_isolation ((handleDecoderConfigs initialWorkerState [0, 0, 0, 0, 0]).1)
    100 [8] (by decide) rfl
  have h6 := tier_no_isolation ((handleDecoderConfigs initialWorkerState [0, 0, 0, 0, 0]).1)
    101 [3] (by decide) rfl
  exact ⟨h.1, h6.2.2.1 rfl⟩

/-- C6: `switchBitrate("720p")` issued while the current tier is "360p"
with the websocket open moves the active tier and the active decoder
pointer to the 720p slot and resets `keyFrameReceived` to false — also when
a keyframe had already been received earlier in the session. -/
theorem bitrate_switch_resets_gate (st : WorkerState)
    (_h360 : st.currentQuality = .q360) :
    (handleBitrateSwitch st .q720 true).currentQuality = .q720
    ∧ (handleBitrateSwitch st .q720 true).currentVideoDecoder = .q720
    ∧ (handleBitrateSwitch st .q720 true).keyFrameReceived = false := by
  refine ⟨rfl, rfl, rfl⟩

theorem bitrate_switch_resets_gate_witness :
    (handleBitrateSwitch { initialWorkerState with keyFrameReceived := true }
      .q720 true).currentQuality = .q720
    ∧ (handleBitrateSwitch { initialWorkerState with keyFrameReceived := true }
      .q720 true).currentVideoDecoder = .q720
    ∧ (handleBitrateSwitch { initialWorkerState with keyFrameReceived := true }
      .q720 true).keyFrameReceived = false :=
  bitrate_switch_resets_gate { initialWorkerState with keyFrameReceived := true } rfl

/-! ### Jitter-resistant audio worklet (`src/src/workers/audio-worklet1.js`)

`JitterResistantProcessor` keeps per-channel sample queues (planar) and an
adaptive target `adaptiveBufferSize` between `minBuffer = 2048` and
`maxBuffer = 8192` frames.  Samples are modelled as `ℚ`; the integer
constructor constants (`bufferSize`, `minBuffer`, `maxBuffer`) are `ℕ`
fields, cast where the source mixes them into floating-point arithmetic.
`postMessage` telemetry carries no state and is omitted. -/

structure JitterState where
  audioBuffers : List (List ℚ)
  bufferSize : ℕ
  minBuffer : ℕ
  maxBuffer : ℕ
  isPlaying : Bool
  fadeInSamples : ℕ
  sampleRate : ℚ
  numberOfChannels : ℕ
  fadeInLength : ℕ
  adaptiveBufferSize : ℚ
  deriving DecidableEq

/-- The constructor state of `JitterResistantProcessor`. -/
def jitterInit : JitterState :=
  { audioBuffers := [], bufferSize := 2048, minBuffer := 2048,
    maxBuffer := 8192, isPlaying := false, fadeInSamples := 0,
    sampleRate := 48000, numberOfChannels := 2, fadeInLength := 480,
    adaptiveBufferSize := 2048 }

/-- `this.audioBuffers[0] ? this.audioBuffers[0].length : 0`. -/
def bufferFrames (st : JitterState) : ℕ := (st.audioBuffers.headD []).length

/-- `addAudioData(channelData)`: append planar data to the per-channel
queues (growing the queue list if needed), trim all queues from the front
when the first queue exceeds `maxBuffer`, then start playback when the
first queue has reached `adaptiveBufferSize`. -/
def addAudioData (st : JitterState) (channelData : List (List ℚ)) : JitterState :=
  if channelData.isEmpty ∨ (channelData.headD []).isEmpty then st
  else
    let numChannels := channelData.length
    let bufs0 := st.audioBuffers ++
      List.replicate (numChannels - st.audioBuffers.length) []
    let bufs1 := bufs0.mapIdx fun ch buf =>
      if ch < numChannels then buf ++ channelData.getD ch [] else buf
    let bufs2 :=
      if st.maxBuffer < (bufs1.headD []).length then
        bufs1.map (·.drop ((bufs1.headD []).length - st.maxBuffer))
      else bufs1
    if st.isPlaying = false ∧ st.adaptiveBufferSize ≤ ((bufs2.headD []).length : ℚ) then
      { st with audioBuffers := bufs2, isPlaying := true, fadeInSamples := 0 }
    else { st with audioBuffers := bufs2 }

/-- `reset()`: clear every queue, stop playback, restore the default target. -/
def resetJitter (st : JitterState) : JitterState :=
  { st with audioBuffers := st.audioBuffers.map fun _ => ([] : List ℚ),
            isPlaying := false, fadeInSamples := 0,
            adaptiveBufferSize := (st.bufferSize : ℚ) }

/-- The `"setBufferSize"` port message:
`adaptiveBufferSize = Math.max(minBuffer, Math.min(maxBuffer, data))`. -/
def setBufferSize (st : JitterState) (data : ℚ) : JitterState :=
  { st with adaptiveBufferSize := max (st.minBuffer : ℚ) (min (st.maxBuffer : ℚ) data) }

/-- The `"audioData"` worker-port message: reconfigure on a format change
(`fadeInLength = Math.round(rate / 100)`, queues cleared by
`resizeBuffers`), then ingest via `addAudioData`. -/
def handleWorkerAudioData (st : JitterState) (channelData : List (List ℚ))
    (rate : ℚ) (channels : ℕ) : JitterState :=
  let st1 :=
    if st.sampleRate ≠ rate ∨ st.numberOfChannels ≠ channels then
      { st with sampleRate := rate, numberOfChannels := channels,
                fadeInLength := (round (rate / 100)).toNat,
                audioBuffers := List.replicate channels [] }
    else st
  addAudioData st1 channelData

/-- The per-sample fade-in gain: `fadeInSamples / fadeInLength` while the
counter is below the fade length, `1.0` afterwards. -/
def fadeMul (cur fadeLen : ℕ) : ℚ :=
  if cur < fadeLen then (cur : ℚ) / (fadeLen : ℚ) else 1

/-- `process(inputs, outputs, parameters)`: on underrun (not playing, or
fewer queued frames than the requested block) emit silence, stop playback
and grow the target (only if it was playing); otherwise copy one block per
channel with fade-in (the counter increments only on channel 0), consume
the queues, and shrink the target when the pre-consumption depth exceeds
twice the target. -/
def process (st : JitterState) (outputChannels outputLength : ℕ) :
    JitterState × List (List ℚ) :=
  let frames := bufferFrames st
  if st.isPlaying = false ∨ frames < outputLength then
    let st' :=
      if st.isPlaying then
        { st with isPlaying := false,
                  adaptiveBufferSize :=
                    min (st.maxBuffer : ℚ) (st.adaptiveBufferSize * (3 / 2)) }
      else st
    (st', List.replicate outputChannels (List.replicate outputLength 0))
  else
    let fadeStart := st.fadeInSamples
    let fadeLen := st.fadeInLength
    let ch0Copies := 0 < st.audioBuffers.length
      ∧ outputLength ≤ (st.audioBuffers.headD []).length
    let fadeAfter :=
      if 0 < outputChannels ∧ ch0Copies ∧ fadeStart < fadeLen then
        min fadeLen (fadeStart + outputLength)
      else fadeStart
    let output := (List.range outputChannels).map fun ch =>
      if ch < st.audioBuffers.length
          ∧ outputLength ≤ (st.audioBuffers.getD ch []).length then
        (List.range outputLength).map fun i =>
          (st.audioBuffers.getD ch []).getD i 0 *
            fadeMul (if ch = 0 then fadeStart + i else fadeAfter) fadeLen
      else List.replicate outputLength 0
    let bufs := st.audioBuffers.map (·.drop outputLength)
    let newAdaptive :=
      if st.adaptiveBufferSize * 2 < (frames : ℚ) then
        max (st.minBuffer : ℚ) (st.adaptiveBufferSize * (19 / 20))
      else st.adaptiveBufferSize
    ({ st with audioBuffers := bufs, fadeInSamples := fadeAfter,
               adaptiveBufferSize := newAdaptive }, output)

/-- One operation on the jitter buffer: network ingest, a render callback,
or one of the port messages. -/
inductive JitterOp
  | ingest (channelData : List (List ℚ)) (rate : ℚ) (channels : ℕ)
  | processCb (outputChannels outputLength : ℕ)
  | resetMsg
  | setBuffer (data : ℚ)

def jitterStep (st : JitterState) (op : JitterOp) : JitterState :=
  match op with
  | .ingest cd r c => handleWorkerAudioData st cd r c
  | .processCb oc ol => (process st oc ol).1
  | .resetMsg => resetJitter st
  | .setBuffer d => setBufferSize st d

theorem addAudioData_adaptive (st : JitterState) (cd : List (List ℚ)) :
    (addAudioData st cd).adaptiveBufferSize = st.adaptiveBufferSize := by
  unfold addAudioData
  dsimp only
  split
  · rfl
  · split <;> split <;> rfl

theorem handleWorkerAudioData_adaptive (st : JitterState) (cd : List (List ℚ))
    (r : ℚ) (c : ℕ) :
    (handleWorkerAudioData st cd r c).adaptiveBufferSize = st.adaptiveBufferSize := by
  unfold handleWorkerAudioData
  dsimp only
  rw [addAudioData_adaptive]
  split <;> rfl

theorem process_adaptive (st : JitterState) (oc ol : ℕ) :
    (process st oc ol).1.adaptiveBufferSize =
      if st.isPlaying = false ∨ bufferFrames st < ol then
        (if st.isPlaying then min (st.maxBuffer : ℚ) (st.adaptiveBufferSize * (3 / 2))
         else st.adaptiveBufferSize)
      else if st.adaptiveBufferSize * 2 < (bufferFrames st : ℚ) then
        max (st.minBuffer : ℚ) (st.adaptiveBufferSize * (19 / 20))
      else st.adaptiveBufferSize := by
  unfold process
  dsimp only
  split
  · split <;> rfl
  · split <;> rfl

/-- C9: in a `process` callback with playback on and fewer queued frames
than the requested block length, the output is a full block of silence on
every channel, `isPlaying` becomes false, `adaptiveBufferSize` becomes
`min(maxBuffer, adaptiveBufferSize * 1.5)`, and the queues are not
consumed. -/
theorem underrun_silence (st : JitterState) (oc ol : ℕ)
    (hp : st.isPlaying = true) (hu : bufferFrames st < ol) :
    (process st oc ol).2 = List.replicate oc (List.replicate ol 0)
    ∧ (process st oc ol).1.isPlaying = false
    ∧ (process st oc ol).1.adaptiveBufferSize
        = min (st.maxBuffer : ℚ) (st.adaptiveBufferSize * (3 / 2))
    ∧ (process st oc ol).1.audioBuffers = st.audioBuffers := by
  unfold process
  simp [hp, hu]

/-- A playing processor whose first (and only) channel queue holds two
samples. -/
def c9state : JitterState :=
  { jitterInit with isPlaying := true, audioBuffers := [[1, 2]] }

theorem underrun_silence_witness :
    (process c9state 2 128).2 = List.replicate 2 (List.replicate 128 0)
    ∧ (process c9state 2 128).1.isPlaying = false
    ∧ (process c9state 2 128).1.adaptiveBufferSize
        = min (c9state.maxBuffer : ℚ) (c9state.adaptiveBufferSize * (3 / 2))
    ∧ (process c9state 2 128).1.audioBuffers = c9state.audioBuffers :=
  underrun_silence c9state 2 128 rfl (by decide)

/-- The C10 claim's growth trigger: the operation is a `process` callback
that underruns while playing. -/
def underrunGrowthCond (st : JitterState) (op : JitterOp) : Prop :=
  match op with
  | .processCb _ ol => st.isPlaying = true ∧ bufferFrames st < ol
  | _ => False

/-- The C10 claim's shrink trigger: a non-underrun `process` callback whose
pre-consumption queue depth exceeds twice the target. -/
def overfullShrinkCond (st : JitterState) (op : JitterOp) : Prop :=
  match op with
  | .processCb _ ol => st.isPlaying = true ∧ ol ≤ bufferFrames st
      ∧ st.adaptiveBufferSize * 2 < (bufferFrames st : ℚ)
  | _ => False

/-- C10 as stated: across every operation — ingest, process callback,
reset, and every port message — `adaptiveBufferSize` increases only on an
underrun (×1.5 capped at `maxBuffer`), decreases only when the queued depth
exceeds twice the target (×0.95 floored at `minBuffer`), and stays within
`[minBuffer, maxBuffer]`. -/
def adaptiveTargetOnlyRule : Prop :=
  ∀ (st : JitterState) (op : JitterOp),
    (st.adaptiveBufferSize < (jitterStep st op).adaptiveBufferSize →
      underrunGrowthCond st op
      ∧ (jitterStep st op).adaptiveBufferSize
          = min (st.maxBuffer : ℚ) (st.adaptiveBufferSize * (3 / 2)))
    ∧ ((jitterStep st op).adaptiveBufferSize < st.adaptiveBufferSize →
      overfullShrinkCond st op
      ∧ (jitterStep st op).adaptiveBufferSize
          = max (st.minBuffer : ℚ) (st.adaptiveBufferSize * (19 / 20)))
    ∧ (st.minBuffer : ℚ) ≤ (jitterStep st op).adaptiveBufferSize
    ∧ (jitterStep st op).adaptiveBufferSize ≤ (st.maxBuffer : ℚ)

/-- C10 counterexample: the `"setBufferSize"` port message sets the target
to any clamped value — from the constructor state, `setBufferSize 4096`
raises `adaptiveBufferSize` from 2048 to 4096 with no underrun, violating
the "only grows on underrun" rule. -/
theorem adaptive_target_rule_ce : ¬ adaptiveTargetOnlyRule := by
  intro h
  have hstep : (jitterStep jitterInit (.setBuffer 4096)).adaptiveBufferSize = 4096 := by
    norm_num [jitterStep, setBufferSize, jitterInit]
  have h1 := (h jitterInit (.setBuffer 4096)).1
  rw [hstep] at h1
  exact (h1 (by norm_num [jitterInit])).1

/-- C10 amended: `adaptiveBufferSize` always stays within
`[minBuffer, maxBuffer]`; during ingest it never changes; during a process
callback it grows only on an underrun while playing (×1.5 capped at
`maxBuffer`) and shrinks only when the pre-consumption queue depth exceeds
twice the target (×0.95 floored at `minBuffer`); the `"reset"` port message
restores the default target and the `"setBufferSize"` port message sets the
clamped requested value (these two may move the target without an underrun
or an over-full queue, which is what refutes the claim as stated). -/
theorem adaptive_target_invariant (st : JitterState) (op : JitterOp)
    (hlo : (st.minBuffer : ℚ) ≤ st.adaptiveBufferSize)
    (hhi : st.adaptiveBufferSize ≤ (st.maxBuffer : ℚ))
    (hmm : st.minBuffer ≤ st.maxBuffer)
    (hbl : st.minBuffer ≤ st.bufferSize) (hbh : st.bufferSize ≤ st.maxBuffer)
    (hpos : 0 < st.minBuffer) :
    ((st.minBuffer : ℚ) ≤ (jitterStep st op).adaptiveBufferSize
      ∧ (jitterStep st op).adaptiveBufferSize ≤ (st.maxBuffer : ℚ))
    ∧ (∀ cd r c, op = .ingest cd r c →
        (jitterStep st op).adaptiveBufferSize = st.adaptiveBufferSize)
    ∧ (∀ oc ol, op = .processCb oc ol →
        (st.adaptiveBufferSize < (jitterStep st op).adaptiveBufferSize →
          st.isPlaying = true ∧ bufferFrames st < ol
          ∧ (jitterStep st op).adaptiveBufferSize
              = min (st.maxBuffer : ℚ) (st.adaptiveBufferSize * (3 / 2)))
        ∧ ((jitterStep st op).adaptiveBufferSize < st.adaptiveBufferSize →
          st.isPlaying = true ∧ ol ≤ bufferFrames st
          ∧ st.adaptiveBufferSize * 2 < (bufferFrames st : ℚ)
          ∧ (jitterStep st op).adaptiveBufferSize
              = max (st.minBuffer : ℚ) (st.adaptiveBufferSize * (19 / 20))))
    ∧ (op = .resetMsg →
        (jitterStep st op).adaptiveBufferSize = (st.bufferSize : ℚ))
    ∧ (∀ d, op = .setBuffer d →
        (jitterStep st op).adaptiveBufferSize
          = max (st.minBuffer : ℚ) (min (st.maxBuffer : ℚ) d)) := by
  have hmmQ : (st.minBuffer : ℚ) ≤ (st.maxBuffer : ℚ) := by exact_mod_cast hmm
  have hposQ : (0 : ℚ) < (st.minBuffer : ℚ) := by exact_mod_cast hpos
  have hA0 : (0 : ℚ) ≤ st.adaptiveBufferSize := le_trans hposQ.le hlo
  cases op with
  | ingest cd r c =>
      rw [show jitterStep st (.ingest cd r c) = handleWorkerAudioData st cd r c from rfl,
        handleWorkerAudioData_adaptive]
      exact ⟨⟨hlo, hhi⟩, fun _ _ _ _ => rfl, fun oc ol h => (by cases h),
        fun h => (by cases h), fun d h => (by cases h)⟩
  | processCb oc ol =>
      have hA := process_adaptive st oc ol
      rw [show jitterStep st (.processCb oc ol) = (process st oc ol).1 from rfl]
      by_cases hcond : st.isPlaying = false ∨ bufferFrames st < ol
      · rw [if_pos hcond] at hA
        by_cases hplay : st.isPlaying
        · rw [if_pos hplay] at hA
          have hgrow : st.adaptiveBufferSize
              ≤ min (st.maxBuffer : ℚ) (st.adaptiveBufferSize * (3 / 2)) :=
            le_min hhi (by linarith)
          refine ⟨⟨?_, ?_⟩, fun _ _ _ h => (by cases h), fun oc' ol' h => ?_,
            fun h => (by cases h), fun d h => (by cases h)⟩
          · rw [hA]; exact le_trans hlo hgrow
          · rw [hA]; exact min_le_left _ _
          · cases h
            constructor
            · intro _
              refine ⟨hplay, ?_, hA⟩
              rcases hcond with hc | hc
              · rw [hplay] at hc; cases hc
              · exact hc
            · intro hlt
              rw [hA] at hlt
              exact absurd hlt (not_lt.mpr hgrow)
        · rw [if_neg hplay] at hA
          refine ⟨⟨by rw [hA]; exact hlo, by rw [hA]; exact hhi⟩,
            fun _ _ _ h => (by cases h), fun oc' ol' h => ?_,
            fun h => (by cases h), fun d h => (by cases h)⟩
          cases h
          rw [hA]
          exact ⟨fun hlt => absurd hlt (lt_irrefl _),
            fun hlt => absurd hlt (lt_irrefl _)⟩
      · rw [if_neg hcond] at hA
        push_neg at hcond
        obtain ⟨hplay, hge⟩ := hcond
        by_cases hshr : st.adaptiveBufferSize * 2 < (bufferFrames st : ℚ)
        · rw [if_pos hshr] at hA
          have hshrle : max (st.minBuffer : ℚ) (st.adaptiveBufferSize * (19 / 20))
              ≤ st.adaptiveBufferSize := max_le hlo (by linarith)
          refine ⟨⟨by rw [hA]; exact le_max_left _ _,
              by rw [hA]; exact le_trans hshrle hhi⟩,
            fun _ _ _ h => (by cases h), fun oc' ol' h => ?_,
            fun h => (by cases h), fun d h => (by cases h)⟩
          cases h
          constructor
          · intro hlt
            rw [hA] at hlt
            exact absurd hlt (not_lt.mpr hshrle)
          · intro _
            exact ⟨Bool.not_eq_false _ ▸ Bool.of_not_eq_false hplay, hge, hshr, hA⟩
        · rw [if_neg hshr] at hA
          refine ⟨⟨by rw [hA]; exact hlo, by rw [hA]; exact hhi⟩,
            fun _ _ _ h => (by cases h), fun oc' ol' h => ?_,
            fun h => (by cases h), fun d h => (by cases h)⟩
          cases h
          rw [hA]
          exact ⟨fun hlt => absurd hlt (lt_irrefl _),
            fun hlt => absurd hlt (lt_irrefl _)⟩
  | resetMsg =>
      rw [show jitterStep st .resetMsg = resetJitter st from rfl]
      have hres : (resetJitter st).adaptiveBufferSize = (st.bufferSize : ℚ) := rfl
      rw [hres]
      exact ⟨⟨by exact_mod_cast hbl, by exact_mod_cast hbh⟩,
        fun _ _ _ h => (by cases h), fun oc ol h => (by cases h),
        fun _ => rfl, fun d h => (by cases h)⟩
  | setBuffer d =>
      rw [show jitterStep st (.setBuffer d) = setBufferSize st d from rfl]
      have hset : (setBufferSize st d).adaptiveBufferSize
          = max (st.minBuffer : ℚ) (min (st.maxBuffer : ℚ) d) := rfl
      rw [hset]
      exact ⟨⟨le_max_left _ _, max_le hmmQ (min_le_left _ _)⟩,
        fun _ _ _ h => (by cases h), fun oc ol h => (by cases h),
        fun h => (by cases h), fun d' h => (by cases h; rfl)⟩

theorem adaptive_target_invariant_witness :
    ((({ jitterInit with isPlaying := true } : JitterState).minBuffer : ℚ)
        ≤ (jitterStep { jitterInit with isPlaying := true }
            (.processCb 2 128)).adaptiveBufferSize
      ∧ (jitterStep { jitterInit with isPlaying := true }
            (.processCb 2 128)).adaptiveBufferSize
        ≤ (({ jitterInit with isPlaying := true } : JitterState).maxBuffer : ℚ)) :=
  (adaptive_target_invariant { jitterInit with isPlaying := true }
    (.processCb 2 128) (by norm_num [jitterInit]) (by norm_num [jitterInit])
    (by norm_num [jitterInit]) (by norm_num [jitterInit])
    (by norm_num [jitterInit]) (by norm_num [jitterInit])).1

end ErmisSDK
